import Mathlib

/-!
Verification of the self-contained logic of the YouTube-Downloader scripts:
the filename sanitizer, the unique-filename allocator, the quality-to-parameter
maps, and the control flow of the interactive main loop. Definitions are
shallow embeddings of the Python functions in `ytmediadownload.py`,
`ytmediaqualityselect.py` and `ytmediadownload.py.py`; the filesystem is
modelled as a finite set of existing path strings, and the terminal and the
download / transcode collaborators as explicit inputs.
-/

namespace YTDL

/-! ### Filename sanitizer (`sanitize_filename`, ytmediadownload.py lines 11-18)

The Python source iterates over the string of invalid characters and applies
`title.replace(char, '_')` for each one; `replace` with a single-character
pattern rewrites every occurrence of that character. -/

/-- The Python string `'<>:"/\\|?*'` of characters replaced by the sanitizer. -/
def invalid_chars : String := "<>:\"/\\|?*"

lemma invalid_chars_data :
    invalid_chars.data = ['<', '>', ':', '"', '/', '\\', '|', '?', '*'] := rfl

/-- The effect of `s.replace(c, '_')` on one character of `s`. -/
def rep (c x : Char) : Char :=
  if x = c then '_' else x

/-- `s.replace(c, '_')` for a single character `c`: every occurrence of `c`
in `s` becomes an underscore. -/
def replaceChar (s : String) (c : Char) : String :=
  ⟨s.data.map (rep c)⟩

/-- `sanitize_filename` from the source: fold `replaceChar` over the invalid
characters, starting from the title. -/
def sanitize_filename (title : String) : String :=
  invalid_chars.data.foldl replaceChar title

/-- The pointwise effect of the whole replacement chain on one character. -/
def sanChar (x : Char) : Char :=
  if x ∈ invalid_chars.data then '_' else x

lemma replaceChar_data (s : String) (c : Char) :
    (replaceChar s c).data = s.data.map (rep c) := rfl

lemma sanChar_chain (x : Char) :
    rep '*' (rep '?' (rep '|' (rep '\\' (rep '/' (rep '"' (rep ':' (rep '>'
      (rep '<' x)))))))) = sanChar x := by
  by_cases h1 : x = '<'
  · subst h1; decide
  by_cases h2 : x = '>'
  · subst h2; decide
  by_cases h3 : x = ':'
  · subst h3; decide
  by_cases h4 : x = '"'
  · subst h4; decide
  by_cases h5 : x = '/'
  · subst h5; decide
  by_cases h6 : x = '\\'
  · subst h6; decide
  by_cases h7 : x = '|'
  · subst h7; decide
  by_cases h8 : x = '?'
  · subst h8; decide
  by_cases h9 : x = '*'
  · subst h9; decide
  have hx : x ∉ invalid_chars.data := by
    rw [invalid_chars_data]
    simp [h1, h2, h3, h4, h5, h6, h7, h8, h9]
  simp only [rep, sanChar, hx, if_false,
    if_neg h1, if_neg h2, if_neg h3, if_neg h4, if_neg h5, if_neg h6,
    if_neg h7, if_neg h8, if_neg h9]

/-- The sequential nine-fold replacement acts on the character list as a
single map of `sanChar`. -/
lemma sanitize_filename_data (t : String) :
    (sanitize_filename t).data = t.data.map sanChar := by
  have h : sanitize_filename t = replaceChar (replaceChar (replaceChar
      (replaceChar (replaceChar (replaceChar (replaceChar (replaceChar
      (replaceChar t '<') '>') ':') '"') '/') '\\') '|') '?') '*' := rfl
  rw [h]
  simp only [replaceChar_data, List.map_map]
  refine List.map_congr_left fun x _ => ?_
  simpa [Function.comp] using sanChar_chain x

lemma sanChar_eq_self {x : Char} (h : x ∉ invalid_chars.data) : sanChar x = x := by
  simp [sanChar, h]

lemma sanChar_not_invalid (x : Char) : sanChar x ∉ invalid_chars.data := by
  by_cases h : x ∈ invalid_chars.data
  · simp [sanChar, h]; decide
  · rwa [sanChar_eq_self h]

/-! ### Quality resolver

`bitrates.get(quality, '192k')` in `convert_to_mp3`
(ytmediaqualityselect.py lines 65-71, ytmediadownload.py.py lines 96-102) and
`quality_formats.get(video_quality, 'bestvideo+bestaudio/best')` in
`download_video` (ytmediaqualityselect.py lines 25-32, ytmediadownload.py.py
lines 36-43). A Python dict literal with distinct keys behaves as an
association list under `.get`. -/

/-- Python `d.get(key, default)` over an association list. -/
def dict_get (d : List (String × String)) (key dflt : String) : String :=
  match d.find? fun p => p.1 == key with
  | some p => p.2
  | none => dflt

/-- The `bitrates` dict of `convert_to_mp3`. -/
def bitrates : List (String × String) :=
  [("low", "128k"), ("medium", "192k"), ("high", "320k")]

/-- The audio branch of the quality resolver: `bitrates.get(quality, '192k')`. -/
def resolve_audio (quality : String) : String :=
  dict_get bitrates quality "192k"

/-- The `quality_formats` dict of `download_video`. -/
def quality_formats : List (String × String) :=
  [("720p", "bestvideo[height<=720]+bestaudio/best"),
   ("1080p", "bestvideo[height<=1080]+bestaudio/best"),
   ("1440p", "bestvideo[height<=1440]+bestaudio/best")]

/-- The video branch of the quality resolver:
`quality_formats.get(video_quality, 'bestvideo+bestaudio/best')`. -/
def resolve_video (quality : String) : String :=
  dict_get quality_formats quality "bestvideo+bestaudio/best"

/-! ### Filename allocator (`generate_unique_filename`, ytmediadownload.py
lines 53-62; the same code in the other two scripts)

The directory state is a finite set `fs` of the path strings that exist.
`pathlib`'s `/` is string concatenation with a separator. The Python loop
probes `title.ext`, `title_1.ext`, `title_2.ext`, ... and returns the first
candidate that does not exist; `f"{i}"` formats `i` in decimal, which is
`Nat.repr`. -/

/-- `output_path / name` of `pathlib`. -/
def joinPath (dir name : String) : String := dir ++ "/" ++ name

/-- The `i`-th candidate the probe loop checks: the plain
`dir/title.extension` for `i = 0`, and `dir/title_i.extension` for
`i ≥ 1`. -/
def candidate (dir title ext : String) (i : Nat) : String :=
  if i = 0 then joinPath dir (title ++ "." ++ ext)
  else joinPath dir (title ++ "_" ++ Nat.repr i ++ "." ++ ext)

lemma toDigitsCore_acc_length (b f n : Nat) (l : List Char) :
    (Nat.toDigitsCore b f n l).length = (Nat.toDigitsCore b f n []).length + l.length := by
  induction l with
  | nil => simp
  | cons c tl ih =>
    rw [Nat.toDigitsCore_lens_eq, ih]
    simp [List.length_cons]
    omega

lemma lt_pow_toDigitsCore_length (b : Nat) (hb : 2 ≤ b) :
    ∀ f n : Nat, n < f → n < b ^ (Nat.toDigitsCore b f n []).length := by
  intro f
  induction f with
  | zero => intro n hn; omega
  | succ f ih =>
    intro n hn
    by_cases h : n / b = 0
    · have hcore : Nat.toDigitsCore b (f + 1) n [] = [Nat.digitChar (n % b)] := by
        simp [Nat.toDigitsCore, h]
      have hnb : n < b := by
        rcases Nat.eq_zero_or_pos n with h0 | h0
        · omega
        · by_contra hge
          have : 0 < n / b := Nat.div_pos (by omega) (by omega)
          omega
      rw [hcore]
      simpa using hnb
    · have hcore : Nat.toDigitsCore b (f + 1) n [] =
          Nat.toDigitsCore b f (n / b) [Nat.digitChar (n % b)] := by
        simp [Nat.toDigitsCore, h]
      rw [hcore, toDigitsCore_acc_length]
      have hnpos : 0 < n := by
        by_contra h0
        have : n = 0 := by omega
        simp [this] at h
      have hdivlt : n / b < f := by
        have h1 : n / b < n := Nat.div_lt_self hnpos (by omega)
        omega
      have hih := ih (n / b) hdivlt
      have hmod : n % b < b := Nat.mod_lt _ (by omega)
      have hdm : b * (n / b) + n % b = n := Nat.div_add_mod n b
      have hmul : b * (n / b + 1) ≤ b * b ^ (Nat.toDigitsCore b f (n / b) []).length :=
        Nat.mul_le_mul_left b (by omega)
      have hsucc : b * (n / b + 1) = b * (n / b) + b := by rw [Nat.mul_succ]
      have hfin : n < b ^ ((Nat.toDigitsCore b f (n / b) []).length + 1) := by
        calc n < b * (n / b + 1) := by omega
          _ ≤ b * b ^ (Nat.toDigitsCore b f (n / b) []).length := hmul
          _ = b ^ ((Nat.toDigitsCore b f (n / b) []).length + 1) := by
              rw [pow_succ, Nat.mul_comm]
      simpa using hfin

/-- Decimal representations are unboundedly long: `n < 10 ^ |repr n|`. -/
lemma lt_pow_repr_length (n : Nat) : n < 10 ^ (Nat.repr n).length := by
  exact lt_pow_toDigitsCore_length 10 (by norm_num) (n + 1) n (Nat.lt_succ_self n)

lemma candidate_length_pos (dir title ext : String) (i : Nat) (hi : i ≠ 0) :
    (Nat.repr i).length ≤ (candidate dir title ext i).length := by
  rw [candidate, if_neg hi, joinPath]
  simp [String.length_append]
  omega

/-- Termination of the probe loop: for any finite set of existing files some
candidate is free, because decimal suffixes grow without bound while the
lengths of the existing paths are bounded. -/
theorem exists_free_candidate (fs : Finset String) (dir title ext : String) :
    ∃ i, candidate dir title ext i ∉ fs := by
  refine ⟨10 ^ (fs.sup String.length + 1), fun hmem => ?_⟩
  have hlen_le : String.length (candidate dir title ext (10 ^ (fs.sup String.length + 1)))
      ≤ fs.sup String.length := Finset.le_sup hmem
  have hne : (10 : Nat) ^ (fs.sup String.length + 1) ≠ 0 := (pow_pos (by norm_num) _).ne'
  have h1 : (Nat.repr (10 ^ (fs.sup String.length + 1))).length ≤
      (candidate dir title ext (10 ^ (fs.sup String.length + 1))).length :=
    candidate_length_pos dir title ext _ hne
  have h2 : (10 : Nat) ^ (fs.sup String.length + 1) <
      10 ^ (Nat.repr (10 ^ (fs.sup String.length + 1))).length := lt_pow_repr_length _
  have h3 : fs.sup String.length + 1 < (Nat.repr (10 ^ (fs.sup String.length + 1))).length :=
    (Nat.pow_lt_pow_iff_right (by norm_num)).mp h2
  omega

/-- The suffix index at which the probe loop of `generate_unique_filename`
stops: the least `i` whose candidate does not exist. -/
def allocIndex (fs : Finset String) (dir title ext : String) : Nat :=
  Nat.find (exists_free_candidate fs dir title ext)

/-- `generate_unique_filename` from the source, denotationally: the first
candidate in the order `title.ext`, `title_1.ext`, `title_2.ext`, ... that is
not in `fs`. -/
def generate_unique_filename (fs : Finset String) (dir title ext : String) : String :=
  candidate dir title ext (allocIndex fs dir title ext)

/-- The literal step-indexed form of the while loop of
`generate_unique_filename`: check the current candidate; if it exists, move
to the next suffix. `fuel` bounds the number of iterations we unfold;
`probe_loop_terminates` (claim C6) shows some finite fuel always suffices. -/
def probe_loop (fs : Finset String) (dir title ext : String) : Nat → Nat → Option String
  | 0, _ => none
  | fuel + 1, i =>
    if candidate dir title ext i ∈ fs then probe_loop fs dir title ext fuel (i + 1)
    else some (candidate dir title ext i)

/-! ### Download step and interactive loop (ytmediadownload.py lines 20-51,
89-154)

The download collaborator (`yt_dlp`), the transcoder (`ffmpeg`) and the
terminal are external; they enter the model as explicit inputs: a fetch
outcome per iteration, success flags for transcoding and temporary-file
deletion, and the list of strings the user types. -/

/-- Outcome of `ydl.extract_info` / `ydl.download`: either the video's title,
or a raised `yt_dlp.DownloadError`. -/
inductive FetchResult where
  | success (title : String)
  | downloadError (msg : String)
deriving DecidableEq

/-- `download_media(url, download_path, format_choice)`: on success the path
of the temporary file and the sanitized title; on `DownloadError` the
sentinel pair `(None, None)`. -/
def download_media (fetch : FetchResult) (download_path : String)
    (format_choice : String) : Option String × Option String :=
  match fetch with
  | .success rawTitle =>
    let title := sanitize_filename rawTitle
    if format_choice = "mp3" then (some (joinPath download_path "audio.m4a"), some title)
    else (some (joinPath download_path "video.mp4"), some title)
  | .downloadError _ => (none, none)

/-- Which downstream steps of one iteration of `main` ran. -/
structure IterationTrace where
  allocated : Bool
  transcoded : Bool
  deletedTemp : Bool
deriving DecidableEq

/-- The body of one iteration of `main` after `prompt_user_input`
(ytmediadownload.py lines 127-148): skip everything when `download_media`
returned the sentinel (or the title is the empty string, which is falsy in
Python); otherwise allocate a destination, transcode, and delete the
temporary file. -/
def run_iteration (fs : Finset String) (download_path : String) (fetch : FetchResult)
    (format_choice : String) (transcodeOk deleteOk : Bool) : IterationTrace :=
  match download_media fetch download_path format_choice with
  | (some _file_path, some title) =>
    if title = "" then ⟨false, false, false⟩
    else if format_choice = "mp3" then
      let _output_file := generate_unique_filename fs download_path title "mp3"
      ⟨true, transcodeOk, deleteOk⟩
    else
      let _output_file := generate_unique_filename fs download_path title "mp4"
      ⟨true, transcodeOk, transcodeOk⟩
  | _ => ⟨false, false, false⟩

/-- Python `s.strip()`: drop whitespace from both ends. -/
def pyStrip (s : String) : String :=
  ⟨((s.data.dropWhile Char.isWhitespace).reverse.dropWhile Char.isWhitespace).reverse⟩

/-- Python `s.lower()`: lowercase each character. -/
def pyLower (s : String) : String := ⟨s.data.map Char.toLower⟩

/-- `input(...).strip().lower()` applied to one typed line. -/
def normalize (s : String) : String := pyLower (pyStrip s)

/-- Python `s.startswith(p)`. -/
def startsWithPy (s p : String) : Bool := p.data.isPrefixOf s.data

/-- The URL loop of `prompt_user_input` (lines 93-97): re-prompt until the
line starts with the YouTube prefix. `none` means the input list ran out. -/
def prompt_url : List String → Option (String × List String)
  | [] => none
  | u :: rest =>
    if startsWithPy u "https://www.youtube.com/" then some (u, rest)
    else prompt_url rest

/-- The format loop of `prompt_user_input` (lines 99-103): re-prompt until
the normalized line is `mp3` or `mp4`. -/
def prompt_format : List String → Option (String × List String)
  | [] => none
  | f :: rest =>
    if normalize f = "mp3" ∨ normalize f = "mp4" then some (normalize f, rest)
    else prompt_format rest

/-- `prompt_user_input()` (lines 89-105): URL first, then the format. -/
def prompt_user_input (inputs : List String) : Option (String × String × List String) :=
  match prompt_url inputs with
  | none => none
  | some (url, rest) =>
    match prompt_format rest with
    | none => none
    | some (fmt, rest2) => some (url, fmt, rest2)

/-- `prompt_continue()` (lines 107-115): re-prompt until the normalized line
is `yes` or `no`, and return it. -/
def prompt_continue : List String → Option (String × List String)
  | [] => none
  | a :: rest =>
    if normalize a = "yes" ∨ normalize a = "no" then some (normalize a, rest)
    else prompt_continue rest

/-- The collaborators of one program run: whether `ffmpeg` is on the path,
the filesystem, the download directory, and per-iteration outcomes of the
download, transcode and delete calls. -/
structure Env where
  ffmpeg : Bool
  fs : Finset String
  download_path : String
  fetch : Nat → FetchResult
  transcodeOk : Nat → Bool
  deleteOk : Nat → Bool

/-- How a run of `main` ends. -/
inductive Outcome where
  | fatalNoFfmpeg
  | declined
  | needsInput
deriving DecidableEq

/-- The `while True` loop of `main` (lines 125-151), iteration `k`, driven by
the remaining user input: prompt for URL and format, run the iteration body,
then `if prompt_continue() != 'yes': break`. `fuel` bounds how many
iterations we unfold; `needsInput` means the inputs (or the fuel) ran out
with the program still waiting, not that it exited. -/
def main_run (env : Env) : Nat → Nat → List String → Outcome
  | 0, _, _ => .needsInput
  | fuel + 1, k, inputs =>
    match prompt_user_input inputs with
    | none => .needsInput
    | some (_url, fmt, rest) =>
      let _tr := run_iteration env.fs env.download_path (env.fetch k) fmt
        (env.transcodeOk k) (env.deleteOk k)
      match prompt_continue rest with
      | none => .needsInput
      | some (ans, rest2) =>
        if ans ≠ "yes" then .declined else main_run env fuel (k + 1) rest2

/-- `main()` (lines 117-151): the startup `which("ffmpeg")` precondition,
then the interactive loop. -/
def main (env : Env) (fuel : Nat) (inputs : List String) : Outcome :=
  if env.ffmpeg then main_run env fuel 0 inputs else .fatalNoFfmpeg

/-! ### The `ytmediaqualityselect.py` variant of the loop (lines 82-144)

Its `prompt_user_input` does not re-prompt: one bad answer returns the
`(None, None, None, None)` sentinel and `main` starts the iteration over
(`if not url: continue`). Its continue prompt (line 143) is a bare
`if input(...).strip().lower() != 'yes': break`, so it consumes exactly one
line and leaves the loop on every answer other than `yes`. -/

/-- `prompt_user_input()` of ytmediaqualityselect.py (lines 82-109): returns
`some (some (url, fmt, audio_quality, video_quality), rest)` on a fully
valid dialogue, `some (none, rest)` for the sentinel return, and `none` when
the typed lines run out mid-dialogue. -/
def prompt_user_input_select :
    List String → Option (Option (String × String × String × Option String) × List String)
  | [] => none
  | u :: rest =>
    if ¬ startsWithPy u "https://www.youtube.com/" then some (none, rest)
    else
      match rest with
      | [] => none
      | f :: rest2 =>
        if ¬ (normalize f = "mp3" ∨ normalize f = "mp4") then some (none, rest2)
        else if normalize f = "mp3" then
          match rest2 with
          | [] => none
          | a :: rest3 =>
            if normalize a = "low" ∨ normalize a = "medium" ∨ normalize a = "high"
            then some (some (u, normalize f, normalize a, none), rest3)
            else some (none, rest3)
        else
          match rest2 with
          | [] => none
          | v :: rest3 =>
            if normalize v = "720p" ∨ normalize v = "1080p" ∨ normalize v = "1440p"
            then some (some (u, normalize f, "medium", some (normalize v)), rest3)
            else some (none, rest3)

/-- The `while True` loop of ytmediaqualityselect.py's `main`
(lines 119-144): on an invalid dialogue `continue`; otherwise run the
iteration body and then `if input(...).strip().lower() != 'yes': break`.
Here `declined` is that `break`, taken on every answer other than `yes`,
recognized or not. -/
def main_select_run (env : Env) : Nat → Nat → List String → Outcome
  | 0, _, _ => .needsInput
  | fuel + 1, k, inputs =>
    match prompt_user_input_select inputs with
    | none => .needsInput
    | some (none, rest) => main_select_run env fuel (k + 1) rest
    | some (some parsed, rest) =>
      let _tr := run_iteration env.fs env.download_path (env.fetch k) parsed.2.1
        (env.transcodeOk k) (env.deleteOk k)
      match rest with
      | [] => .needsInput
      | a :: rest2 =>
        if normalize a ≠ "yes" then .declined else main_select_run env fuel (k + 1) rest2

/-- `main()` of ytmediaqualityselect.py (lines 111-144): the same startup
`which("ffmpeg")` check, then its loop. -/
def main_select (env : Env) (fuel : Nat) (inputs : List String) : Outcome :=
  if env.ffmpeg then main_select_run env fuel 0 inputs else .fatalNoFfmpeg

/-! ### Supporting lemmas -/

lemma sanChar_idem (x : Char) : sanChar (sanChar x) = sanChar x := by
  by_cases h : x ∈ invalid_chars.data
  · simp [sanChar, h]
  · simp [sanChar, h]

lemma append_right_injective (a : String) {x y : String} (h : a ++ x = a ++ y) :
    x = y := by
  apply String.ext
  have hd := congrArg String.data h
  simp only [String.data_append] at hd
  exact List.append_cancel_left hd

lemma candidate_zero (dir : String) : candidate dir "t" "mp3" 0 = dir ++ "/t.mp3" := by
  have h : candidate dir "t" "mp3" 0 = dir ++ "/" ++ "t.mp3" := rfl
  have h2 : ("/" : String) ++ "t.mp3" = "/t.mp3" := rfl
  rw [h, String.append_assoc, h2]

lemma candidate_one (dir : String) : candidate dir "t" "mp3" 1 = dir ++ "/t_1.mp3" := by
  have h : candidate dir "t" "mp3" 1 = dir ++ "/" ++ "t_1.mp3" := rfl
  have h2 : ("/" : String) ++ "t_1.mp3" = "/t_1.mp3" := rfl
  rw [h, String.append_assoc, h2]

lemma candidate_two (dir : String) : candidate dir "t" "mp3" 2 = dir ++ "/t_2.mp3" := by
  have h : candidate dir "t" "mp3" 2 = dir ++ "/" ++ "t_2.mp3" := rfl
  have h2 : ("/" : String) ++ "t_2.mp3" = "/t_2.mp3" := rfl
  rw [h, String.append_assoc, h2]

lemma probe_loop_spec (fs : Finset String) (dir title ext : String) :
    ∀ k i, allocIndex fs dir title ext = i + k →
      probe_loop fs dir title ext (k + 1) i = some (candidate dir title ext (i + k)) := by
  intro k
  induction k with
  | zero =>
    intro i h
    have hfree : candidate dir title ext i ∉ fs := by
      have hidx : allocIndex fs dir title ext = i := by omega
      have hs := Nat.find_spec (exists_free_candidate fs dir title ext)
      rwa [show Nat.find (exists_free_candidate fs dir title ext) = i from hidx] at hs
    simp [probe_loop, hfree]
  | succ k ih =>
    intro i h
    have hmem : candidate dir title ext i ∈ fs := by
      have hi : i < allocIndex fs dir title ext := by omega
      exact not_not.mp (Nat.find_min (exists_free_candidate fs dir title ext) hi)
    rw [probe_loop, if_pos hmem]
    have := ih (i + 1) (by omega)
    rwa [show i + 1 + k = i + (k + 1) by omega] at this

lemma main_run_ne_fatal (env : Env) :
    ∀ fuel k inputs, main_run env fuel k inputs ≠ Outcome.fatalNoFfmpeg := by
  intro fuel
  induction fuel with
  | zero => intro k inputs; simp [main_run]
  | succ fuel ih =>
    intro k inputs
    rw [main_run]
    cases hpu : prompt_user_input inputs with
    | none => simp
    | some v =>
      obtain ⟨url, fmt, rest⟩ := v
      cases hpc : prompt_continue rest with
      | none => simp [hpc]
      | some w =>
        obtain ⟨ans, rest2⟩ := w
        by_cases hans : ans = "yes"
        · simp only [hpc]
          simpa [hans] using ih (k + 1) rest2
        · simp [hpc, hans]

lemma main_select_run_ne_fatal (env : Env) :
    ∀ fuel k inputs, main_select_run env fuel k inputs ≠ Outcome.fatalNoFfmpeg := by
  intro fuel
  induction fuel with
  | zero => intro k inputs; simp [main_select_run]
  | succ fuel ih =>
    intro k inputs
    rw [main_select_run]
    cases hpu : prompt_user_input_select inputs with
    | none => simp
    | some v =>
      obtain ⟨parsed, rest⟩ := v
      cases parsed with
      | none => exact ih (k + 1) rest
      | some tup =>
        cases rest with
        | nil => simp
        | cons a rest2 =>
          by_cases hans : normalize a = "yes"
          · simpa [hans] using ih (k + 1) rest2
          · simp [hans]

/-! ### The claims -/

/-- Claim C1: for every directory state, title and extension, the path
returned by `generate_unique_filename` does not exist at the moment of the
existence check that precedes its return. -/
theorem generate_unique_filename_not_exists (fs : Finset String)
    (dir title ext : String) : generate_unique_filename fs dir title ext ∉ fs :=
  Nat.find_spec (exists_free_candidate fs dir title ext)

/-- Claim C2: the allocator follows the probe sequence `title.ext`,
`title_1.ext`, `title_2.ext`, ...: in an empty directory it returns
`dir/t.mp3`; if `dir/t.mp3` exists it returns `dir/t_1.mp3`; if both exist
it returns `dir/t_2.mp3`. -/
theorem generate_unique_filename_probe_sequence (dir : String) :
    generate_unique_filename ∅ dir "t" "mp3" = dir ++ "/t.mp3" ∧
    generate_unique_filename {dir ++ "/t.mp3"} dir "t" "mp3" = dir ++ "/t_1.mp3" ∧
    generate_unique_filename {dir ++ "/t.mp3", dir ++ "/t_1.mp3"} dir "t" "mp3" =
      dir ++ "/t_2.mp3" := by
  refine ⟨?_, ?_, ?_⟩
  · have h0 : allocIndex ∅ dir "t" "mp3" = 0 := by
      rw [allocIndex, Nat.find_eq_iff]
      exact ⟨Finset.not_mem_empty _, by omega⟩
    rw [generate_unique_filename, h0, candidate_zero]
  · have h1 : allocIndex {dir ++ "/t.mp3"} dir "t" "mp3" = 1 := by
      rw [allocIndex, Nat.find_eq_iff]
      constructor
      · rw [candidate_one, Finset.mem_singleton]
        intro h
        exact absurd (append_right_injective dir h) (by decide)
      · intro m hm
        interval_cases m
        rw [candidate_zero]
        simp
    rw [generate_unique_filename, h1, candidate_one]
  · have h2 : allocIndex {dir ++ "/t.mp3", dir ++ "/t_1.mp3"} dir "t" "mp3" = 2 := by
      rw [allocIndex, Nat.find_eq_iff]
      constructor
      · rw [candidate_two, Finset.mem_insert, Finset.mem_singleton]
        rintro (h | h)
        · exact absurd (append_right_injective dir h) (by decide)
        · exact absurd (append_right_injective dir h) (by decide)
      · intro m hm
        interval_cases m
        · rw [candidate_zero]; simp
        · rw [candidate_one]; simp
    rw [generate_unique_filename, h2, candidate_two]

/-- Claim C3: the sanitizer replaces each occurrence of each character of
`< > : " / \ | ? *` with an underscore, so the output contains none of the
nine; a title containing none of them is returned unchanged. -/
theorem sanitize_filename_removes_invalid (title : String) :
    (∀ c, c ∈ invalid_chars.data → c ∉ (sanitize_filename title).data) ∧
    ((∀ c, c ∈ title.data → c ∉ invalid_chars.data) →
      sanitize_filename title = title) := by
  constructor
  · intro c hc hmem
    rw [sanitize_filename_data] at hmem
    obtain ⟨x, _, hx⟩ := List.mem_map.mp hmem
    exact absurd hc (hx ▸ sanChar_not_invalid x)
  · intro hclean
    apply String.ext
    rw [sanitize_filename_data]
    calc title.data.map sanChar = title.data.map id :=
          List.map_congr_left fun a ha => sanChar_eq_self (hclean a ha)
      _ = title.data := List.map_id title.data

/-- Witness for C3 at concrete inputs: a clean title is unchanged, and the
sanitized form of a dirty title has lost its `<`. -/
theorem sanitize_filename_removes_invalid_witness :
    sanitize_filename "abc" = "abc" ∧ '<' ∉ (sanitize_filename "a<b").data :=
  ⟨(sanitize_filename_removes_invalid "abc").2 (by decide),
   (sanitize_filename_removes_invalid "a<b").1 '<' (by decide)⟩

/-- Claim C4: for audio, the quality resolver maps low to 128k, medium to
192k, high to 320k, and every other label to the default 192k rather than
an error. -/
theorem resolve_audio_table :
    resolve_audio "low" = "128k" ∧ resolve_audio "medium" = "192k" ∧
    resolve_audio "high" = "320k" ∧
    ∀ q, q ≠ "low" → q ≠ "medium" → q ≠ "high" → resolve_audio q = "192k" := by
  refine ⟨rfl, rfl, rfl, ?_⟩
  intro q h1 h2 h3
  have e1 : (("low" : String) == q) = false := beq_eq_false_iff_ne.mpr (Ne.symm h1)
  have e2 : (("medium" : String) == q) = false := beq_eq_false_iff_ne.mpr (Ne.symm h2)
  have e3 : (("high" : String) == q) = false := beq_eq_false_iff_ne.mpr (Ne.symm h3)
  simp [resolve_audio, dict_get, bitrates, List.find?, e1, e2, e3]

/-- Witness for C4 at a concrete unrecognized label. -/
theorem resolve_audio_table_witness :
    ("unknown" : String) ≠ "low" ∧ resolve_audio "unknown" = "192k" :=
  ⟨by decide, resolve_audio_table.2.2.2 "unknown" (by decide) (by decide) (by decide)⟩

/-- Claim C5: for video, the quality resolver maps 720p, 1080p and 1440p to
the height-capped selectors and every other label to the uncapped
`bestvideo+bestaudio/best`. -/
theorem resolve_video_table :
    resolve_video "720p" = "bestvideo[height<=720]+bestaudio/best" ∧
    resolve_video "1080p" = "bestvideo[height<=1080]+bestaudio/best" ∧
    resolve_video "1440p" = "bestvideo[height<=1440]+bestaudio/best" ∧
    ∀ q, q ≠ "720p" → q ≠ "1080p" → q ≠ "1440p" →
      resolve_video q = "bestvideo+bestaudio/best" := by
  refine ⟨rfl, rfl, rfl, ?_⟩
  intro q h1 h2 h3
  have e1 : (("720p" : String) == q) = false := beq_eq_false_iff_ne.mpr (Ne.symm h1)
  have e2 : (("1080p" : String) == q) = false := beq_eq_false_iff_ne.mpr (Ne.symm h2)
  have e3 : (("1440p" : String) == q) = false := beq_eq_false_iff_ne.mpr (Ne.symm h3)
  simp [resolve_video, dict_get, quality_formats, List.find?, e1, e2, e3]

/-- Witness for C5 at a concrete unrecognized label. -/
theorem resolve_video_table_witness :
    ("bogus" : String) ≠ "720p" ∧ resolve_video "bogus" = "bestvideo+bestaudio/best" :=
  ⟨by decide, resolve_video_table.2.2.2 "bogus" (by decide) (by decide) (by decide)⟩

/-- Claim C6: the probe loop of the allocator, written without a max-retry
cap, terminates for every finite set of existing files: some finite fuel
makes the literal loop return, and it returns the allocator's value. -/
theorem probe_loop_terminates (fs : Finset String) (dir title ext : String) :
    ∃ fuel, probe_loop fs dir title ext fuel 0 =
      some (generate_unique_filename fs dir title ext) := by
  refine ⟨allocIndex fs dir title ext + 1, ?_⟩
  have h := probe_loop_spec fs dir title ext (allocIndex fs dir title ext) 0 (by omega)
  rw [Nat.zero_add] at h
  exact h

/-- Claim C9 (implicit): the allocator returns the earliest candidate of the
ordered probe sequence that does not exist: whenever it returns the
candidate with suffix index `i`, every candidate with a smaller index exists
in the directory. -/
theorem generate_unique_filename_earliest (fs : Finset String)
    (dir title ext : String) :
    generate_unique_filename fs dir title ext =
      candidate dir title ext (allocIndex fs dir title ext) ∧
    ∀ j, j < allocIndex fs dir title ext → candidate dir title ext j ∈ fs := by
  refine ⟨rfl, fun j hj => ?_⟩
  exact not_not.mp (Nat.find_min (exists_free_candidate fs dir title ext) hj)

/-- Witness for C9: with `d/t.mp3` existing the allocator skips index 0, and
indeed candidate 0 exists. -/
theorem generate_unique_filename_earliest_witness :
    0 < allocIndex {"d/t.mp3"} "d" "t" "mp3" ∧
    candidate "d" "t" "mp3" 0 ∈ ({"d/t.mp3"} : Finset String) := by
  have hpos : 0 < allocIndex {"d/t.mp3"} "d" "t" "mp3" :=
    (Nat.find_pos (exists_free_candidate {"d/t.mp3"} "d" "t" "mp3")).mpr (by decide)
  exact ⟨hpos, (generate_unique_filename_earliest {"d/t.mp3"} "d" "t" "mp3").2 0 hpos⟩

/-- Claim C7: when the download collaborator raises `DownloadError`, the
download step returns the sentinel `(None, None)`, the downstream steps of
the iteration (allocation, transcoding, temp-file deletion) are all skipped,
and the loop moves on to the continue prompt instead of propagating the
error. -/
theorem download_error_skips_iteration (env : Env) (k : Nat) (msg : String)
    (fmt : String) (fuel : Nat) (inputs : List String) (url : String)
    (rest : List String) (ans : String) (rest2 : List String)
    (hfetch : env.fetch k = FetchResult.downloadError msg)
    (hinput : prompt_user_input inputs = some (url, fmt, rest))
    (hcont : prompt_continue rest = some (ans, rest2)) :
    download_media (FetchResult.downloadError msg) env.download_path fmt = (none, none) ∧
    run_iteration env.fs env.download_path (env.fetch k) fmt
      (env.transcodeOk k) (env.deleteOk k) = ⟨false, false, false⟩ ∧
    main_run env (fuel + 1) k inputs =
      (if ans ≠ "yes" then Outcome.declined else main_run env fuel (k + 1) rest2) := by
  refine ⟨rfl, ?_, ?_⟩
  · rw [hfetch]; rfl
  · by_cases hans : ans = "yes"
    · simp [main_run, hinput, hcont, hans]
    · simp [main_run, hinput, hcont, hans]

/-- Witness for C7: a concrete erroring download inside a run that carries
on to the next iteration. -/
theorem download_error_skips_iteration_witness :
    download_media (FetchResult.downloadError "boom") "d" "mp3" = (none, none) ∧
    run_iteration ∅ "d" (FetchResult.downloadError "boom") "mp3" true true =
      ⟨false, false, false⟩ ∧
    main_run ⟨true, ∅, "d", fun _ => FetchResult.downloadError "boom",
        fun _ => true, fun _ => true⟩ 1 0
        ["https://www.youtube.com/w", "mp3", "yes"] =
      (if ("yes" : String) ≠ "yes" then Outcome.declined
       else main_run ⟨true, ∅, "d", fun _ => FetchResult.downloadError "boom",
        fun _ => true, fun _ => true⟩ 0 1 []) :=
  download_error_skips_iteration
    ⟨true, ∅, "d", fun _ => FetchResult.downloadError "boom",
      fun _ => true, fun _ => true⟩
    0 "boom" "mp3" 0 ["https://www.youtube.com/w", "mp3", "yes"]
    "https://www.youtube.com/w" ["yes"] "yes" []
    rfl (by decide) (by decide)

/-- Counterexample to claim C8 as stated: in ytmediaqualityselect.py's loop
the unrecognized continue answer `maybe` ends the loop (the `break` at line
143 fires on every answer other than `yes`), so "an unrecognized answer to
the continue prompt does not end the loop" fails for that script. -/
theorem select_loop_ends_on_unrecognized_answer :
    normalize "maybe" ≠ "yes" ∧ normalize "maybe" ≠ "no" ∧
    main_select ⟨true, ∅, "d", fun _ => FetchResult.success "t",
        fun _ => true, fun _ => true⟩ 1
      ["https://www.youtube.com/w", "mp4", "720p", "maybe"] = Outcome.declined := by
  refine ⟨by decide, by decide, ?_⟩
  rfl

/-- Claim C8 as amended: in every script the program ends only by the normal
loop exit taken at the continue prompt or by the fatal missing-transcoder
check at startup; in ytmediadownload.py (and ytmediadownload.py.py) an
unrecognized continue answer is re-prompted and only a valid decline leaves
the loop, while in ytmediaqualityselect.py the continue prompt consumes one
line and every answer other than `yes` — unrecognized ones included — ends
the loop (still a normal exit, never an error). -/
theorem exits_decline_or_fatal_per_script (env : Env) (fuel : Nat)
    (inputs : List String) :
    (env.ffmpeg = false → main env fuel inputs = Outcome.fatalNoFfmpeg ∧
      main_select env fuel inputs = Outcome.fatalNoFfmpeg) ∧
    (env.ffmpeg = true →
      (main env fuel inputs = Outcome.declined ∨
        main env fuel inputs = Outcome.needsInput) ∧
      (main_select env fuel inputs = Outcome.declined ∨
        main_select env fuel inputs = Outcome.needsInput)) ∧
    (∀ a rest, normalize a ≠ "yes" → normalize a ≠ "no" →
      prompt_continue (a :: rest) = prompt_continue rest) ∧
    (∀ k inputs2 tup a rest2,
      prompt_user_input_select inputs2 = some (some tup, a :: rest2) →
      main_select_run env (fuel + 1) k inputs2 =
        if normalize a ≠ "yes" then Outcome.declined
        else main_select_run env fuel (k + 1) rest2) := by
  refine ⟨fun hff => by simp [main, main_select, hff], fun hff => ?_,
    fun a rest h1 h2 => ?_, fun k inputs2 tup a rest2 hparse => ?_⟩
  · constructor
    · have hmain : main env fuel inputs = main_run env fuel 0 inputs := by
        simp [main, hff]
      rw [hmain]
      cases h : main_run env fuel 0 inputs with
      | fatalNoFfmpeg => exact absurd h (main_run_ne_fatal env fuel 0 inputs)
      | declined => exact Or.inl rfl
      | needsInput => exact Or.inr rfl
    · have hmain : main_select env fuel inputs = main_select_run env fuel 0 inputs := by
        simp [main_select, hff]
      rw [hmain]
      cases h : main_select_run env fuel 0 inputs with
      | fatalNoFfmpeg => exact absurd h (main_select_run_ne_fatal env fuel 0 inputs)
      | declined => exact Or.inl rfl
      | needsInput => exact Or.inr rfl
  · simp [prompt_continue, h1, h2]
  · by_cases hans : normalize a = "yes"
    · simp [main_select_run, hparse, hans]
    · simp [main_select_run, hparse, hans]

/-- Witness for the amended C8: a missing transcoder is fatal in both
scripts; a junk answer at ytmediadownload.py's continue prompt is skipped;
ytmediaqualityselect.py's continue step leaves the loop exactly when the one
consumed answer is not `yes`. -/
theorem exits_decline_or_fatal_per_script_witness :
    (main ⟨false, ∅, "d", fun _ => FetchResult.success "t",
        fun _ => true, fun _ => true⟩ 1 [] = Outcome.fatalNoFfmpeg ∧
      main_select ⟨false, ∅, "d", fun _ => FetchResult.success "t",
        fun _ => true, fun _ => true⟩ 1 [] = Outcome.fatalNoFfmpeg) ∧
    prompt_continue ["maybe", "no"] = prompt_continue ["no"] ∧
    main_select_run ⟨true, ∅, "d", fun _ => FetchResult.success "t",
        fun _ => true, fun _ => true⟩ 1 0
      ["https://www.youtube.com/w", "mp4", "720p", "yes"] =
      (if normalize "yes" ≠ "yes" then Outcome.declined
       else main_select_run ⟨true, ∅, "d", fun _ => FetchResult.success "t",
        fun _ => true, fun _ => true⟩ 0 1 []) :=
  ⟨(exits_decline_or_fatal_per_script
      ⟨false, ∅, "d", fun _ => FetchResult.success "t",
        fun _ => true, fun _ => true⟩ 1 []).1 rfl,
   (exits_decline_or_fatal_per_script
      ⟨true, ∅, "d", fun _ => FetchResult.success "t",
        fun _ => true, fun _ => true⟩ 0 []).2.2.1 "maybe" ["no"]
      (by decide) (by decide),
   (exits_decline_or_fatal_per_script
      ⟨true, ∅, "d", fun _ => FetchResult.success "t",
        fun _ => true, fun _ => true⟩ 0 []).2.2.2 0
      ["https://www.youtube.com/w", "mp4", "720p", "yes"]
      ("https://www.youtube.com/w", "mp4", "medium", some "720p") "yes" []
      rfl⟩

/-- Claim C10 (implicit): the sanitizer is idempotent and length-preserving. -/
theorem sanitize_filename_idempotent_length (title : String) :
    sanitize_filename (sanitize_filename title) = sanitize_filename title ∧
    (sanitize_filename title).length = title.length := by
  constructor
  · apply String.ext
    rw [sanitize_filename_data, sanitize_filename_data, List.map_map]
    exact List.map_congr_left fun a _ => sanChar_idem a
  · show (sanitize_filename title).data.length = title.data.length
    rw [sanitize_filename_data, List.length_map]

end YTDL
